import Mathlib

/-!
# Verification model of the role-based DM scheduler bot (src/main.py)

A pure shallow embedding of the program's core: the persisted records
(config / templates / progress), the dispatch loop `dm_scheduler` with its
retry/backoff policy and automatic progress reports, and the control
commands the claims refer to (`startdm`, `resetprogress`,
`ensure_data_files`, `build_progress_embed`).

External effects are supplied as oracle parameters:
* delivery outcomes of `member.send` (`Outcome`, per recipient and attempt),
* the drawn jitter values of `random.uniform(0, jitter_seconds)`,
* the template index drawn by `random.choice`,
* resolvability of the progress channel and success of report emission,
* the state of `stop_event` at each loop iteration,
* guild/role lookup results (`World`).

Writes to the JSON files are recorded in the results (snapshot lists /
boolean flags) rather than performed.
-/

namespace MassDmer

/-- Outcome of one `member.send(message)` call (src/main.py lines 147-154):
returns normally, raises `discord.Forbidden`, or raises
`discord.HTTPException`. -/
inductive Outcome
  | delivered
  | forbidden
  | httpError
deriving DecidableEq, Repr

/-- The progress record persisted in data/progress.json
(`DEFAULT_PROGRESS`, src/main.py lines 36-40). -/
structure Progress where
  member_index : Nat
  total_sent : Nat
  last_progress_sent : Nat
deriving DecidableEq, Repr

/-- The in-memory `config` dict: the keys of `DEFAULT_CONFIG`
(src/main.py lines 23-34) plus the two keys `delivery_mode` and
`delivery_channel_id` that only the `setdeliverymode` /
`setdeliverychannel` commands add.  Keys that may be absent or `None`
are `Option`; `config.get(k, d)` is modelled by `Option.getD`. -/
structure Config where
  guild_id : Option Nat := none
  target_role_id : Option Nat := none
  dm_delay_seconds : Nat := 5
  batch_size : Nat := 25
  batch_delay_seconds : Nat := 60
  is_running : Bool := false
  progress_channel_id : Option Nat := none
  excluded_user_ids : List Nat := []
  progress_every : Nat := 25
  jitter_seconds : Nat := 2
  delivery_mode : Option String := none
  delivery_channel_id : Option Nat := none
deriving DecidableEq, Repr

/-- A guild member as the scheduler sees it: its id and whether it is a
bot account (`m.bot`). -/
structure Member where
  id : Nat
  bot : Bool
deriving DecidableEq, Repr

/-- Which send path a delivery used.  The dispatch loop of src/main.py
always calls `member.send`, i.e. the direct-message path. -/
inductive DeliveryPath
  | dm
  | channel
deriving DecidableEq, Repr, BEq

/-- The retry loop of src/main.py lines 146-161.
`o a` is the outcome of the send call made while `attempt = a` (every
earlier iteration raised `HTTPException`, each incrementing `attempt`
by one, so the call index equals the current value of `attempt`);
`j a` is the jitter drawn after that call fails transiently.
The fuel argument is `max_attempts - attempt`, so the loop guard
`attempt < max_attempts` is `fuel > 0`.
Returns `(total_sent incremented?, number of send calls, backoff sleeps)`. -/
def retryGo (o : Nat → Outcome) (j : Nat → ℚ) : Nat → Nat → Bool × Nat × List ℚ
  | _, 0 => (false, 0, [])
  | attempt, fuel + 1 =>
    match o attempt with
    | .delivered => (true, 1, [])
    | .forbidden => (false, 1, [])
    | .httpError =>
      let a := attempt + 1
      let back : ℚ := 2 ^ a + j attempt
      if 3 ≤ a then (false, 1, [back])
      else
        let r := retryGo o j a fuel
        (r.1, 1 + r.2.1, back :: r.2.2)

/-- Entry point of the retry loop: `attempt = 0`, `max_attempts = 3`. -/
def retrySend (o : Nat → Outcome) (j : Nat → ℚ) : Bool × Nat × List ℚ :=
  retryGo o j 0 3

/-- What processing one recipient produced (src/main.py lines 138-161):
whether `total_sent` was incremented, how many send calls were made, the
backoff sleeps, the send path taken, the value read from
`config.get("delivery_mode", "dm")`, and the chosen template. -/
structure RecipResult where
  delivered : Bool
  calls : Nat
  sleeps : List ℚ
  path : DeliveryPath
  modeRead : String
  message : String
deriving DecidableEq, Repr

/-- Lines 138-161 for one recipient: choose a template
(`random.choice`, modelled by the drawn index `pick`), read
`delivery_mode` (read but unused by the send path), run the retry loop.
The send call is always `member.send`, hence path `.dm`. -/
def processRecipient (cfg : Config) (templates : List String)
    (o : Nat → Outcome) (j : Nat → ℚ) (pick : Nat) : RecipResult :=
  let message := templates.getD (pick % templates.length) ""
  let modeRead := cfg.delivery_mode.getD "dm"
  let r := retrySend o j
  ⟨r.1, r.2.1, r.2.2, .dm, modeRead, message⟩

/-- Oracles for one run of `dm_scheduler`, indexed by recipient index:
`stop i` is `stop_event.is_set()` at the top of iteration `i`;
`outcome i a` the result of the `a`-th send call for recipient `i`;
`jit i a` the jitter drawn after that call fails transiently;
`pick i` the template index drawn for recipient `i`;
`chanOk i` whether the progress channel resolves at iteration `i`'s
automatic report, `sendOk i` whether that report emission succeeds;
`chanOkFinal` / `sendOkFinal` likewise for the final report. -/
structure Env where
  stop : Nat → Bool
  outcome : Nat → Nat → Outcome
  jit : Nat → Nat → ℚ
  pick : Nat → Nat
  chanOk : Nat → Bool
  sendOk : Nat → Bool
  chanOkFinal : Bool
  sendOkFinal : Bool

/-- Result of the automatic progress-report check (src/main.py lines
167-190): the possibly-updated progress record, whether `ch.send` was
invoked, whether it succeeded, and the progress snapshots written. -/
structure ReportOut where
  prog : Progress
  attempted : Bool
  emitted : Bool
  persists : List Progress
deriving DecidableEq, Repr

/-- Lines 167-190: if `progress_every > 0` and `total_sent` is a
multiple of it, resolve the progress channel (`chan_id` truthy and the
lookup succeeding, collapsed into `chanOk`), deduplicate against
`last_progress_sent`, then send; a raised exception is caught
(`sendOk = false` changes nothing and the loop continues). -/
def reportStep (cfg : Config) (chanOk sendOk : Bool) (prog : Progress) : ReportOut :=
  if cfg.progress_every != 0 && prog.total_sent % cfg.progress_every == 0 then
    if cfg.progress_channel_id.getD 0 != 0 && chanOk then
      if prog.total_sent != prog.last_progress_sent then
        if sendOk then
          let p := { prog with last_progress_sent := prog.total_sent }
          ⟨p, true, true, [p]⟩
        else ⟨prog, true, false, []⟩
      else ⟨prog, false, false, []⟩
    else ⟨prog, false, false, []⟩
  else ⟨prog, false, false, []⟩

/-- What one iteration of the dispatch loop produced. -/
structure StepOut where
  recip : RecipResult
  prog : Progress
  persists : List Progress
  sib : Nat
deriving DecidableEq, Repr

/-- The body of the dispatch loop for recipient index `idx`
(src/main.py lines 138-199): process the recipient, set
`member_index = idx + 1`, persist the progress record immediately
(first element of `persists`), run the automatic report check, and
update `sent_in_batch` (reset to 0 when it reaches `batch_size`;
the batch pause itself only affects timing). -/
def loopStep (cfg : Config) (templates : List String) (E : Env)
    (idx sib : Nat) (prog : Progress) : StepOut :=
  let r := processRecipient cfg templates (E.outcome idx) (E.jit idx) (E.pick idx)
  let prog1 : Progress :=
    { member_index := idx + 1,
      total_sent := prog.total_sent + (if r.delivered then 1 else 0),
      last_progress_sent := prog.last_progress_sent }
  let rep := reportStep cfg (E.chanOk idx) (E.sendOk idx) prog1
  let sib1 := sib + 1
  ⟨r, rep.prog, prog1 :: rep.persists,
    if cfg.batch_size ≤ sib1 then 0 else sib1⟩

/-- Cumulative result of the dispatch loop: final progress record, the
recipient indices processed in order, every progress snapshot persisted,
and the send path used for each processed recipient. -/
structure LoopResult where
  progress : Progress
  processed : List Nat
  persists : List Progress
  paths : List DeliveryPath
deriving DecidableEq, Repr

/-- The `while member_index < len(members)` loop (src/main.py lines
134-199), with explicit fuel (the loop runs at most `n - idx` more
iterations, so any fuel `≥ n - idx` computes the loop exactly). -/
def dmGo (E : Env) (cfg : Config) (templates : List String) (n : Nat) :
    Nat → Nat → Nat → Progress → LoopResult
  | 0, _, _, prog => ⟨prog, [], [], []⟩
  | fuel + 1, idx, sib, prog =>
    if idx < n then
      if E.stop idx then ⟨prog, [], [], []⟩
      else
        let s := loopStep cfg templates E idx sib prog
        let rest := dmGo E cfg templates n fuel (idx + 1) s.sib s.prog
        ⟨rest.progress, idx :: rest.processed,
          s.persists ++ rest.persists, s.recip.path :: rest.paths⟩
    else ⟨prog, [], [], []⟩

/-- External guild/role resolution: `guildOk g` is whether
`bot.get_guild(g)` returns a guild, `role r` the members of
`guild.get_role(r)` when the role exists. -/
structure World where
  guildOk : Nat → Bool
  role : Nat → Option (List Member)

/-- The recipient list of src/main.py lines 126-129: the target role's
members with bot accounts and excluded ids filtered out (empty when the
role does not resolve; the scheduler only uses it after its guards). -/
def resolved_members (w : World) (cfg : Config) : List Member :=
  match w.role (cfg.target_role_id.getD 0) with
  | none => []
  | some ms => ms.filter (fun m => !m.bot && !(cfg.excluded_user_ids.contains m.id))

/-- The entry preconditions of `dm_scheduler` (src/main.py lines
109-124), each of whose failures makes the coroutine return at once
with no state change: `config.get("guild_id")` truthy and the guild
resolvable, `config.get("target_role_id")` truthy and the role
resolvable, the template list non-empty. -/
def setup_ok (w : World) (cfg : Config) (templates : List String) : Bool :=
  let gid := cfg.guild_id.getD 0
  let rid := cfg.target_role_id.getD 0
  gid != 0 && w.guildOk gid && rid != 0 && (w.role rid).isSome && !templates.isEmpty

/-- The final progress report (src/main.py lines 204-225): same as the
automatic one but without the interval condition. -/
def finalReport (cfg : Config) (chanOk sendOk : Bool) (prog : Progress) :
    Progress × List Progress :=
  if cfg.progress_channel_id.getD 0 != 0 && chanOk then
    if prog.total_sent != prog.last_progress_sent then
      if sendOk then
        let p := { prog with last_progress_sent := prog.total_sent }
        (p, [p])
      else (prog, [])
    else (prog, [])
  else (prog, [])

/-- Result of one `dm_scheduler` coroutine run: final config and
progress, processed indices, all progress snapshots persisted, send
paths, and whether the run got past the entry guards (`completed` is
false exactly on the early returns of lines 109-124, which change no
state — in particular they do not touch `is_running`). -/
structure SchedResult where
  config : Config
  progress : Progress
  processed : List Nat
  persists : List Progress
  paths : List DeliveryPath
  completed : Bool
deriving DecidableEq, Repr

/-- `dm_scheduler` (src/main.py lines 106-225).  After the loop the code
sets `is_running = False`, persists the config, and attempts a final
report. -/
def dm_scheduler (w : World) (E : Env) (cfg : Config)
    (templates : List String) (prog : Progress) : SchedResult :=
  if setup_ok w cfg templates then
    let members := resolved_members w cfg
    let n := members.length
    let r := dmGo E cfg templates n n prog.member_index 0 prog
    let cfg2 := { cfg with is_running := false }
    let fin := finalReport cfg2 E.chanOkFinal E.sendOkFinal r.progress
    ⟨cfg2, fin.1, r.processed, r.persists ++ fin.2, r.paths, true⟩
  else ⟨cfg, prog, [], [], [], false⟩

/-- Result of the `startdm` command (src/main.py lines 314-326). -/
structure StartOut where
  config : Config
  progress : Progress
  stopCleared : Bool
  configSaved : Bool
  taskStarted : Bool
  reply : String
deriving DecidableEq, Repr

/-- `startdm`: reject when already running (no state change, no task),
otherwise clear the stop event, set `is_running`, persist the config and
create the `dm_scheduler` task.  The command never touches the progress
record. -/
def startdm (cfg : Config) (prog : Progress) : StartOut :=
  if cfg.is_running then
    ⟨cfg, prog, false, false, false, "DM process already running"⟩
  else
    ⟨{ cfg with is_running := true }, prog, true, true, true, "DM sending started"⟩

/-- Result of the `resetprogress` command (src/main.py lines 583-596). -/
structure ResetOut where
  config : Config
  progress : Progress
  stopSet : Bool
  configSaved : Bool
  progressSaved : Bool
deriving DecidableEq, Repr

/-- `resetprogress`: set the stop event, force `is_running = False` and
persist the config, then zero `member_index` and `total_sent` and
persist the progress record.  (`last_progress_sent` is not written.) -/
def resetprogress (cfg : Config) (prog : Progress) : ResetOut :=
  ⟨{ cfg with is_running := false },
   { prog with member_index := 0, total_sent := 0 },
   true, true, true⟩

/-- A JSON value, as stored in the data files. -/
inductive JVal
  | null
  | nat (n : Nat)
  | bool (b : Bool)
  | str (s : String)
  | arr (xs : List JVal)

/-- `DEFAULT_CONFIG` (src/main.py lines 23-34), as the JSON object
written to data/config.json on first run. -/
def DEFAULT_CONFIG : List (String × JVal) :=
  [("guild_id", .null),
   ("target_role_id", .null),
   ("dm_delay_seconds", .nat 5),
   ("batch_size", .nat 25),
   ("batch_delay_seconds", .nat 60),
   ("is_running", .bool false),
   ("progress_channel_id", .null),
   ("excluded_user_ids", .arr []),
   ("progress_every", .nat 25),
   ("jitter_seconds", .nat 2)]

/-- The template document written on first run
(the literal at src/main.py line 53). -/
def DEFAULT_TEMPLATES : List (String × JVal) :=
  [("templates", .arr [])]

/-- `DEFAULT_PROGRESS` (src/main.py lines 36-40). -/
def DEFAULT_PROGRESS : List (String × JVal) :=
  [("member_index", .nat 0),
   ("total_sent", .nat 0),
   ("last_progress_sent", .nat 0)]

/-- `ensure_data_files` (src/main.py lines 46-56): each of the three
data files is written with its default content exactly when it does not
exist; an existing file is left as is.  Arguments are the prior file
contents (`none` = file absent); the result is the three on-disk
records afterwards. -/
def ensure_data_files (cfgFile tmplFile progFile : Option (List (String × JVal))) :
    List (String × JVal) × List (String × JVal) × List (String × JVal) :=
  (cfgFile.getD DEFAULT_CONFIG,
   tmplFile.getD DEFAULT_TEMPLATES,
   progFile.getD DEFAULT_PROGRESS)

/-- `_fmt_seconds` (src/main.py lines 548-557). -/
def fmt_seconds (sec : Nat) : String :=
  let h := sec / 3600
  let m := sec % 3600 / 60
  let s := sec % 60
  if h != 0 then s!"{h}h {m}m {s}s"
  else if m != 0 then s!"{m}m {s}s"
  else s!"{s}s"

/-- The data shown by `build_progress_embed`. -/
structure EmbedData where
  total_members : Nat
  remaining : Nat
  est_seconds : Nat
  est_str : String
  status : String
deriving DecidableEq, Repr

/-- `build_progress_embed` (src/main.py lines 529-571), reduced to the
data it computes: member count (bots filtered), remaining count,
estimated seconds and its formatting, and the status label.
`role_members` is `role.members` when guild and role resolve. -/
def build_progress_embed (role_members : Option (List Member))
    (cfg : Config) (prog : Progress) : EmbedData :=
  match role_members with
  | none =>
    ⟨0, 0, 0, "0s", if cfg.is_running then "Running" else "Stopped"⟩
  | some l =>
    let ms := l.filter (fun m => !m.bot)
    let total := ms.length
    let remaining := total - prog.member_index
    let est :=
      if 0 < remaining then
        remaining * cfg.dm_delay_seconds +
          remaining / cfg.batch_size * cfg.batch_delay_seconds
      else 0
    ⟨total, remaining, est,
      if 0 < remaining then fmt_seconds est else "0s",
      if cfg.is_running then "Running" else "Stopped"⟩

/-- The formatting that the specification's words describe, for
comparison with the code's `fmt_seconds`: list only the NON-ZERO
hour/minute/second units, largest to smallest ("0s" when all are
zero). -/
def fmtClaimed (sec : Nat) : String :=
  let h := sec / 3600
  let m := sec % 3600 / 60
  let s := sec % 60
  let parts :=
    (if h != 0 then [s!"{h}h"] else []) ++
    (if m != 0 then [s!"{m}m"] else []) ++
    (if s != 0 then [s!"{s}s"] else [])
  if parts.isEmpty then "0s" else String.intercalate " " parts

/-- The automatic-report trigger condition in the words of the
specification, for comparison with the code's `reportStep`. -/
def autoTriggerClaimed (interval total last : Nat) : Bool :=
  total != 0 && total % interval == 0 && total != last

/-! ## Helper lemmas -/

lemma reportStep_member_index (cfg : Config) (c s : Bool) (p : Progress) :
    (reportStep cfg c s p).prog.member_index = p.member_index := by
  unfold reportStep
  repeat' split
  all_goals rfl

lemma reportStep_total_sent (cfg : Config) (c s : Bool) (p : Progress) :
    (reportStep cfg c s p).prog.total_sent = p.total_sent := by
  unfold reportStep
  repeat' split
  all_goals rfl

/-- Run of the dispatch loop with enough fuel and the stop event never
set: the processed indices are exactly `[idx, n)`. -/
lemma dmGo_processed (E : Env) (cfg : Config) (t : List String) (n : Nat)
    (hstop : ∀ i, E.stop i = false) :
    ∀ fuel idx sib prog, n - idx ≤ fuel →
      (dmGo E cfg t n fuel idx sib prog).processed = List.range' idx (n - idx) := by
  intro fuel
  induction fuel with
  | zero =>
    intro idx sib prog h
    have h0 : n - idx = 0 := Nat.le_zero.mp h
    simp [dmGo, h0]
  | succ f ih =>
    intro idx sib prog h
    by_cases hlt : idx < n
    · have h1 : n - (idx + 1) ≤ f := by omega
      have h2 : n - idx = n - (idx + 1) + 1 := by omega
      simp only [dmGo, if_pos hlt, hstop idx, Bool.false_eq_true, if_false, h2]
      rw [ih _ _ _ h1]
      rfl
    · have h0 : n - idx = 0 := by omega
      simp [dmGo, hlt, h0]

/-! ## Claims -/

/-- C1: a run that passes the entry guards, started with persisted cursor
`k = prog.member_index` over the resolved recipient sequence of length
`n` and never signalled to stop, processes exactly the recipients at
indices `[k, n)` in order and never one at an index below `k`. -/
theorem resume_processes_exactly_tail (w : World) (E : Env) (cfg : Config)
    (templates : List String) (prog : Progress)
    (hstop : ∀ i, E.stop i = false)
    (hrun : (dm_scheduler w E cfg templates prog).completed = true) :
    (dm_scheduler w E cfg templates prog).processed =
      List.range' prog.member_index
        ((resolved_members w cfg).length - prog.member_index) ∧
    ∀ i ∈ (dm_scheduler w E cfg templates prog).processed,
      prog.member_index ≤ i ∧ i < (resolved_members w cfg).length := by
  by_cases hok : setup_ok w cfg templates
  · have hpr : (dm_scheduler w E cfg templates prog).processed =
        (dmGo E cfg templates (resolved_members w cfg).length
          (resolved_members w cfg).length prog.member_index 0 prog).processed := by
      simp [dm_scheduler, hok]
    rw [hpr, dmGo_processed E cfg templates _ hstop _ _ _ _ (Nat.sub_le _ _)]
    refine ⟨rfl, ?_⟩
    intro i hi
    have := List.mem_range'_1.mp hi
    omega
  · simp [dm_scheduler, hok] at hrun

/-- Witness for C1: a concrete run over 5 recipients resumed at cursor 2
processes exactly indices `[2, 3, 4]`. -/
theorem resume_processes_exactly_tail_witness :
    (dm_scheduler ⟨fun _ => true, fun _ => some (List.replicate 5 ⟨1, false⟩)⟩
        ⟨fun _ => false, fun _ _ => Outcome.delivered, fun _ _ => 0, fun _ => 0,
         fun _ => true, fun _ => true, true, true⟩
        { guild_id := some 1, target_role_id := some 2 } ["hi"] ⟨2, 0, 0⟩).processed =
      List.range' 2 3 ∧
    ∀ i ∈ (dm_scheduler ⟨fun _ => true, fun _ => some (List.replicate 5 ⟨1, false⟩)⟩
        ⟨fun _ => false, fun _ _ => Outcome.delivered, fun _ _ => 0, fun _ => 0,
         fun _ => true, fun _ => true, true, true⟩
        { guild_id := some 1, target_role_id := some 2 } ["hi"] ⟨2, 0, 0⟩).processed,
      2 ≤ i ∧ i < 5 :=
  resume_processes_exactly_tail _ _ _ _ _ (fun _ => rfl) (by decide)

/-- C2 (code bug): starting a run whose entry precondition fails (here:
no guild configured) leaves RunProgress unchanged and processes nobody,
but does NOT return the run state to Stopped — the early returns of
`dm_scheduler` skip the `is_running = False` reset, so after
`startdm` set it, `is_running` stays `true`. -/
theorem setup_abort_leaves_is_running :
    (dm_scheduler ⟨fun _ => false, fun _ => none⟩
        ⟨fun _ => false, fun _ _ => Outcome.delivered, fun _ _ => 0, fun _ => 0,
         fun _ => true, fun _ => true, true, true⟩
        (startdm {} ⟨0, 0, 0⟩).config ["hi"] ⟨0, 0, 0⟩).config.is_running = true ∧
    (dm_scheduler ⟨fun _ => false, fun _ => none⟩
        ⟨fun _ => false, fun _ _ => Outcome.delivered, fun _ _ => 0, fun _ => 0,
         fun _ => true, fun _ => true, true, true⟩
        (startdm {} ⟨0, 0, 0⟩).config ["hi"] ⟨0, 0, 0⟩).progress = ⟨0, 0, 0⟩ ∧
    (dm_scheduler ⟨fun _ => false, fun _ => none⟩
        ⟨fun _ => false, fun _ _ => Outcome.delivered, fun _ _ => 0, fun _ => 0,
         fun _ => true, fun _ => true, true, true⟩
        (startdm {} ⟨0, 0, 0⟩).config ["hi"] ⟨0, 0, 0⟩).processed = [] := by
  decide

/-- Counterexample to C3 as stated: when every attempt fails
transiently, the code performs THREE backoff sleeps (`2^1`, `2^2` and
`2^3` plus jitter, here jitter 0), not only the two the claim names. -/
theorem transient_retry_sleeps_counterexample :
    (retrySend (fun _ => Outcome.httpError) (fun _ => 0)).2.2 = [2, 4, 8] ∧
    (retrySend (fun _ => Outcome.httpError) (fun _ => 0)).2.2.length ≠ 2 := by
  have h : (retrySend (fun _ => Outcome.httpError) (fun _ => 0)).2.2 = [2, 4, 8] := by
    simp only [retrySend, retryGo]
    norm_num
  refine ⟨h, ?_⟩
  rw [h]
  decide

/-- C3 as amended: a recipient whose every attempt fails transiently is
attempted exactly 3 times; the backoff sleeps are `2^1+jitter` and
`2^2+jitter` between attempts AND a final `2^3+jitter` after the last
failed attempt; then the recipient is abandoned with the cursor advanced
by 1 and `total_sent` unchanged. -/
theorem transient_retry_bound (cfg : Config) (templates : List String)
    (E : Env) (idx sib : Nat) (prog : Progress)
    (hout : ∀ a, E.outcome idx a = Outcome.httpError) :
    (loopStep cfg templates E idx sib prog).recip.calls = 3 ∧
    (loopStep cfg templates E idx sib prog).recip.delivered = false ∧
    (loopStep cfg templates E idx sib prog).recip.sleeps =
      [2 ^ 1 + E.jit idx 0, 2 ^ 2 + E.jit idx 1, 2 ^ 3 + E.jit idx 2] ∧
    (loopStep cfg templates E idx sib prog).prog.member_index = idx + 1 ∧
    (loopStep cfg templates E idx sib prog).prog.total_sent = prog.total_sent := by
  have hrs : retrySend (E.outcome idx) (E.jit idx) =
      (false, 3, [2 ^ 1 + E.jit idx 0, 2 ^ 2 + E.jit idx 1, 2 ^ 3 + E.jit idx 2]) := by
    simp [retrySend, retryGo, hout 0, hout 1, hout 2]
  refine ⟨?_, ?_, ?_, ?_, ?_⟩
  · simp [loopStep, processRecipient, hrs]
  · simp [loopStep, processRecipient, hrs]
  · simp [loopStep, processRecipient, hrs]
  · simp [loopStep, reportStep_member_index]
  · have h := reportStep_total_sent cfg (E.chanOk idx) (E.sendOk idx)
      ⟨idx + 1, prog.total_sent +
        (if (processRecipient cfg templates (E.outcome idx) (E.jit idx)
              (E.pick idx)).delivered then 1 else 0),
       prog.last_progress_sent⟩
    simp only [loopStep]
    rw [h]
    simp [processRecipient, hrs]

/-- Witness for C3: the amended retry behaviour at a concrete recipient
with jitter 1 on every draw. -/
theorem transient_retry_bound_witness :
    (loopStep {} ["hi"]
        ⟨fun _ => false, fun _ _ => Outcome.httpError, fun _ _ => 1, fun _ => 0,
         fun _ => true, fun _ => true, true, true⟩ 4 0 ⟨4, 7, 0⟩).recip.calls = 3 ∧
    (loopStep {} ["hi"]
        ⟨fun _ => false, fun _ _ => Outcome.httpError, fun _ _ => 1, fun _ => 0,
         fun _ => true, fun _ => true, true, true⟩ 4 0 ⟨4, 7, 0⟩).recip.delivered = false ∧
    (loopStep {} ["hi"]
        ⟨fun _ => false, fun _ _ => Outcome.httpError, fun _ _ => 1, fun _ => 0,
         fun _ => true, fun _ => true, true, true⟩ 4 0 ⟨4, 7, 0⟩).recip.sleeps =
      [2 ^ 1 + 1, 2 ^ 2 + 1, 2 ^ 3 + 1] ∧
    (loopStep {} ["hi"]
        ⟨fun _ => false, fun _ _ => Outcome.httpError, fun _ _ => 1, fun _ => 0,
         fun _ => true, fun _ => true, true, true⟩ 4 0 ⟨4, 7, 0⟩).prog.member_index = 5 ∧
    (loopStep {} ["hi"]
        ⟨fun _ => false, fun _ _ => Outcome.httpError, fun _ _ => 1, fun _ => 0,
         fun _ => true, fun _ => true, true, true⟩ 4 0 ⟨4, 7, 0⟩).prog.total_sent = 7 :=
  transient_retry_bound _ _ _ _ _ _ (fun _ => rfl)

/-- C4: a permanently failing delivery (Forbidden on the first attempt)
makes exactly one send call; for every processed recipient the cursor
advances by exactly 1, the new progress record is persisted immediately
(it is the first snapshot written by the iteration), and `total_sent`
grows by 1 exactly when delivery was confirmed. -/
theorem processed_recipient_counters (cfg : Config) (templates : List String)
    (E : Env) (idx sib : Nat) (prog : Progress) :
    (loopStep cfg templates E idx sib prog).prog.member_index = idx + 1 ∧
    (loopStep cfg templates E idx sib prog).prog.total_sent =
      prog.total_sent +
        (if (loopStep cfg templates E idx sib prog).recip.delivered then 1 else 0) ∧
    (loopStep cfg templates E idx sib prog).persists.head? = some
      ⟨idx + 1,
       prog.total_sent +
         (if (loopStep cfg templates E idx sib prog).recip.delivered then 1 else 0),
       prog.last_progress_sent⟩ ∧
    (E.outcome idx 0 = Outcome.forbidden →
      (loopStep cfg templates E idx sib prog).recip.calls = 1 ∧
      (loopStep cfg templates E idx sib prog).recip.delivered = false) := by
  refine ⟨?_, ?_, ?_, ?_⟩
  · simp [loopStep, reportStep_member_index]
  · simp only [loopStep]
    rw [reportStep_total_sent]
  · rfl
  · intro h
    constructor
    · simp [loopStep, processRecipient, retrySend, retryGo, h]
    · simp [loopStep, processRecipient, retrySend, retryGo, h]

/-- Witness for C4: a recipient that is Forbidden on the first attempt is
not retried; the cursor snapshot is persisted first and `total_sent` is
unchanged. -/
theorem processed_recipient_counters_witness :
    (loopStep {} ["hi"]
        ⟨fun _ => false, fun _ _ => Outcome.forbidden, fun _ _ => 0, fun _ => 0,
         fun _ => true, fun _ => true, true, true⟩ 3 0 ⟨3, 9, 0⟩).prog.member_index = 4 ∧
    (loopStep {} ["hi"]
        ⟨fun _ => false, fun _ _ => Outcome.forbidden, fun _ _ => 0, fun _ => 0,
         fun _ => true, fun _ => true, true, true⟩ 3 0 ⟨3, 9, 0⟩).prog.total_sent = 9 ∧
    (loopStep {} ["hi"]
        ⟨fun _ => false, fun _ _ => Outcome.forbidden, fun _ _ => 0, fun _ => 0,
         fun _ => true, fun _ => true, true, true⟩ 3 0 ⟨3, 9, 0⟩).persists.head? =
      some ⟨4, 9, 0⟩ ∧
    (loopStep {} ["hi"]
        ⟨fun _ => false, fun _ _ => Outcome.forbidden, fun _ _ => 0, fun _ => 0,
         fun _ => true, fun _ => true, true, true⟩ 3 0 ⟨3, 9, 0⟩).recip.calls = 1 ∧
    (loopStep {} ["hi"]
        ⟨fun _ => false, fun _ _ => Outcome.forbidden, fun _ _ => 0, fun _ => 0,
         fun _ => true, fun _ => true, true, true⟩ 3 0 ⟨3, 9, 0⟩).recip.delivered = false := by
  have h := processed_recipient_counters ({} : Config) ["hi"]
    ⟨fun _ => false, fun _ _ => Outcome.forbidden, fun _ _ => 0, fun _ => 0,
     fun _ => true, fun _ => true, true, true⟩ 3 0 ⟨3, 9, 0⟩
  have hd := h.2.2.2 rfl
  refine ⟨h.1, ?_, ?_, hd.1, hd.2⟩
  · have h2 := h.2.1
    simpa [hd.2] using h2
  · have h3 := h.2.2.1
    simpa [hd.2] using h3

/-- Report-check outcomes never influence cursor, delivery counting, the
set of processed recipients, or the send paths: a dispatch loop run
under arbitrary channel-resolution and emission-success oracles agrees
on all of these with the same run under the original oracles, for any
starting progress records that agree on `total_sent` and
`member_index`. -/
lemma dmGo_report_oracles (E : Env) (c s : Nat → Bool) (cfg : Config)
    (t : List String) (n : Nat) :
    ∀ fuel idx sib (p q : Progress),
      p.member_index = q.member_index → p.total_sent = q.total_sent →
      (dmGo { E with chanOk := c, sendOk := s } cfg t n fuel idx sib p).processed =
        (dmGo E cfg t n fuel idx sib q).processed ∧
      (dmGo { E with chanOk := c, sendOk := s } cfg t n fuel idx sib p).paths =
        (dmGo E cfg t n fuel idx sib q).paths ∧
      (dmGo { E with chanOk := c, sendOk := s } cfg t n fuel idx sib p).progress.member_index =
        (dmGo E cfg t n fuel idx sib q).progress.member_index ∧
      (dmGo { E with chanOk := c, sendOk := s } cfg t n fuel idx sib p).progress.total_sent =
        (dmGo E cfg t n fuel idx sib q).progress.total_sent := by
  intro fuel
  induction fuel with
  | zero =>
    intro idx sib p q hm ht
    exact ⟨rfl, rfl, hm, ht⟩
  | succ f ih =>
    intro idx sib p q hm ht
    by_cases hlt : idx < n
    · cases hst : E.stop idx with
      | true => simp [dmGo, hlt, hst]; exact ⟨hm, ht⟩
      | false =>
        have hst' : ({ E with chanOk := c, sendOk := s } : Env).stop idx = false := hst
        simp only [dmGo, if_pos hlt, hst, hst', Bool.false_eq_true, if_false]
        have hrec := ih (idx + 1)
          (loopStep cfg t { E with chanOk := c, sendOk := s } idx sib p).sib
          (loopStep cfg t { E with chanOk := c, sendOk := s } idx sib p).prog
          (loopStep cfg t E idx sib q).prog ?_ ?_
        · refine ⟨?_, ?_, ?_, ?_⟩
          · have hsib : (loopStep cfg t { E with chanOk := c, sendOk := s } idx sib p).sib =
                (loopStep cfg t E idx sib q).sib := rfl
            simp only [List.cons.injEq, true_and]
            rw [hsib] at hrec
            exact hrec.1
          · have hsib : (loopStep cfg t { E with chanOk := c, sendOk := s } idx sib p).sib =
                (loopStep cfg t E idx sib q).sib := rfl
            rw [hsib] at hrec
            simp only [List.cons.injEq]
            exact ⟨rfl, hrec.2.1⟩
          · have hsib : (loopStep cfg t { E with chanOk := c, sendOk := s } idx sib p).sib =
                (loopStep cfg t E idx sib q).sib := rfl
            rw [hsib] at hrec
            exact hrec.2.2.1
          · have hsib : (loopStep cfg t { E with chanOk := c, sendOk := s } idx sib p).sib =
                (loopStep cfg t E idx sib q).sib := rfl
            rw [hsib] at hrec
            exact hrec.2.2.2
        · show (reportStep cfg (c idx) (s idx) _).prog.member_index =
            (reportStep cfg (E.chanOk idx) (E.sendOk idx) _).prog.member_index
          rw [reportStep_member_index, reportStep_member_index]
        · show (reportStep cfg (c idx) (s idx) _).prog.total_sent =
            (reportStep cfg (E.chanOk idx) (E.sendOk idx) _).prog.total_sent
          rw [reportStep_total_sent, reportStep_total_sent]
          simp [ht]
    · simp [dmGo, hlt]
      exact ⟨hm, ht⟩

/-- Counterexample to C5 as stated: with `progressInterval = 25` and
`lastReportedTotal = 25` (reachable because `resetprogress` zeroes
`total_sent` but not `last_progress_sent`), the code attempts and emits
an automatic report at `totalDelivered = 0`, although the claim's
condition `totalDelivered > 0` is false there. -/
theorem auto_report_trigger_counterexample :
    (reportStep { progress_channel_id := some 3 } true true ⟨1, 0, 25⟩).attempted = true ∧
    (reportStep { progress_channel_id := some 3 } true true ⟨1, 0, 25⟩).emitted = true ∧
    autoTriggerClaimed 25 0 25 = false := by
  decide

/-- C5 as amended: inside the dispatch loop, an automatic report is
attempted exactly when `progress_every > 0`, `total_sent` is a multiple
of it, the progress channel is configured and resolves, and
`total_sent ≠ last_progress_sent` (NO requirement `total_sent > 0`);
emission succeeds exactly when additionally the send succeeds;
`last_progress_sent` is updated exactly on successful emission (so a
failed emission is retried at the next trigger boundary); and the
report-check outcomes never change which recipients the loop processes
nor its cursor/delivered counters. -/
theorem auto_report_semantics :
    (∀ cfg (c s : Bool) (p : Progress),
      (reportStep cfg c s p).attempted =
        (cfg.progress_every != 0 && p.total_sent % cfg.progress_every == 0 &&
         cfg.progress_channel_id.getD 0 != 0 && c &&
         p.total_sent != p.last_progress_sent) ∧
      (reportStep cfg c s p).emitted = ((reportStep cfg c s p).attempted && s) ∧
      (reportStep cfg c s p).prog.last_progress_sent =
        (if (reportStep cfg c s p).emitted then p.total_sent
         else p.last_progress_sent)) ∧
    (∀ E (c s : Nat → Bool) cfg t n fuel idx sib (p : Progress),
      (dmGo { E with chanOk := c, sendOk := s } cfg t n fuel idx sib p).processed =
        (dmGo E cfg t n fuel idx sib p).processed ∧
      (dmGo { E with chanOk := c, sendOk := s } cfg t n fuel idx sib p).progress.member_index =
        (dmGo E cfg t n fuel idx sib p).progress.member_index ∧
      (dmGo { E with chanOk := c, sendOk := s } cfg t n fuel idx sib p).progress.total_sent =
        (dmGo E cfg t n fuel idx sib p).progress.total_sent) := by
  constructor
  · intro cfg c s p
    unfold reportStep
    repeat' split
    all_goals simp_all
  · intro E c s cfg t n fuel idx sib p
    have h := dmGo_report_oracles E c s cfg t n fuel idx sib p p rfl rfl
    exact ⟨h.1, h.2.2.1, h.2.2.2⟩

/-- Counterexample to C6 as stated: `resetprogress` does not return
RunProgress to the all-zero state — `last_progress_sent` keeps its old
value (here 25). -/
theorem reset_not_all_zero_counterexample :
    (resetprogress {} ⟨7, 30, 25⟩).progress ≠ ⟨0, 0, 0⟩ ∧
    (resetprogress {} ⟨7, 30, 25⟩).progress.last_progress_sent = 25 := by
  decide

/-- C6 as amended: `resetprogress` always sets the stop event, forces
the run state to Stopped, zeroes `member_index` and `total_sent`, and
persists both records — but it leaves `last_progress_sent` unchanged
rather than zeroing it. -/
theorem reset_semantics (cfg : Config) (prog : Progress) :
    (resetprogress cfg prog).config = { cfg with is_running := false } ∧
    (resetprogress cfg prog).progress = ⟨0, 0, prog.last_progress_sent⟩ ∧
    (resetprogress cfg prog).stopSet = true ∧
    (resetprogress cfg prog).configSaved = true ∧
    (resetprogress cfg prog).progressSaved = true :=
  ⟨rfl, rfl, rfl, rfl, rfl⟩

/-- C7: a start request while the run state is Running changes neither
the config (cursor and totals live in the untouched progress record)
nor the progress record, starts no second dispatch-loop task, persists
nothing, and replies with a rejection message. -/
theorem start_while_running_rejected (cfg : Config) (prog : Progress)
    (h : cfg.is_running = true) :
    (startdm cfg prog).config = cfg ∧
    (startdm cfg prog).progress = prog ∧
    (startdm cfg prog).taskStarted = false ∧
    (startdm cfg prog).configSaved = false ∧
    (startdm cfg prog).reply = "DM process already running" := by
  simp [startdm, h]

/-- Witness for C7 at a concrete running configuration. -/
theorem start_while_running_rejected_witness :
    (startdm { is_running := true } ⟨3, 4, 5⟩).config =
      ({ is_running := true } : Config) ∧
    (startdm { is_running := true } ⟨3, 4, 5⟩).progress = ⟨3, 4, 5⟩ ∧
    (startdm { is_running := true } ⟨3, 4, 5⟩).taskStarted = false ∧
    (startdm { is_running := true } ⟨3, 4, 5⟩).configSaved = false ∧
    (startdm { is_running := true } ⟨3, 4, 5⟩).reply = "DM process already running" :=
  start_while_running_rejected _ _ rfl

/-- Counterexample to C8 as stated: the configuration record created on
first run does not contain the keys `delivery_mode` or
`delivery_channel_id`, and has ten keys, not twelve. -/
theorem first_run_config_keys_counterexample :
    ¬ ("delivery_mode" ∈ (ensure_data_files none none none).1.map Prod.fst) ∧
    ¬ ("delivery_channel_id" ∈ (ensure_data_files none none none).1.map Prod.fst) ∧
    (ensure_data_files none none none).1.length = 10 := by
  refine ⟨?_, ?_, rfl⟩ <;> decide

/-- C8 as amended: on first initialization with no prior persisted
state, the created configuration record has exactly the ten default
keys with the documented values (delay 5, batch size 25, batch pause
60, progress every 25, jitter 2, not running, empty exclude list; the
`delivery_mode` / `delivery_channel_id` keys are absent until their
set-commands run), the template record is an empty list, and the
progress record is all zeros. -/
theorem first_run_defaults :
    ensure_data_files none none none =
      ([("guild_id", .null), ("target_role_id", .null),
        ("dm_delay_seconds", .nat 5), ("batch_size", .nat 25),
        ("batch_delay_seconds", .nat 60), ("is_running", .bool false),
        ("progress_channel_id", .null), ("excluded_user_ids", .arr []),
        ("progress_every", .nat 25), ("jitter_seconds", .nat 2)],
       [("templates", .arr [])],
       [("member_index", .nat 0), ("total_sent", .nat 0),
        ("last_progress_sent", .nat 0)]) :=
  rfl

/-- Counterexample to C9's formatting clause as stated: the code's
formatter prints zero-valued smaller units — at 3600 seconds it yields
"1h 0m 0s", not the "1h" that listing only non-zero units (as the claim
words it, `fmtClaimed`) would give. -/
theorem fmt_zero_units_counterexample :
    fmt_seconds 3600 = "1h 0m 0s" ∧ fmtClaimed 3600 = "1h" ∧
    fmt_seconds 3600 ≠ fmtClaimed 3600 := by
  decide

/-- C9 as amended: for every progress report,
`remaining = max(0, totalRecipients - cursor)` and
`estimatedSeconds = remaining * perMessageDelay
+ floor(remaining / batchSize) * batchPause`; the duration is formatted
largest-to-smallest starting at the largest non-zero unit but including
the smaller units even when they are zero; in particular remaining=30,
batchSize=25, perMessageDelay=5, batchPause=60 yields 210 seconds
formatted "3m 30s". -/
theorem estimated_time_computation :
    (∀ (ms : List Member) (cfg : Config) (prog : Progress),
      ((build_progress_embed (some ms) cfg prog).remaining : ℤ) =
        max 0 (((ms.filter (fun m => !m.bot)).length : ℤ) - (prog.member_index : ℤ)) ∧
      (build_progress_embed (some ms) cfg prog).est_seconds =
        (build_progress_embed (some ms) cfg prog).remaining * cfg.dm_delay_seconds +
          (build_progress_embed (some ms) cfg prog).remaining / cfg.batch_size *
            cfg.batch_delay_seconds) ∧
    (∀ sec : Nat,
      (3600 ≤ sec →
        fmt_seconds sec = s!"{sec / 3600}h {sec % 3600 / 60}m {sec % 60}s") ∧
      (60 ≤ sec → sec < 3600 →
        fmt_seconds sec = s!"{sec / 60}m {sec % 60}s") ∧
      (sec < 60 → fmt_seconds sec = s!"{sec}s")) ∧
    ((build_progress_embed (some (List.replicate 30 ⟨1, false⟩)) {}
        ⟨0, 0, 0⟩).est_seconds = 210 ∧
      (build_progress_embed (some (List.replicate 30 ⟨1, false⟩)) {}
        ⟨0, 0, 0⟩).est_str = "3m 30s") := by
  refine ⟨fun ms cfg prog => ⟨?_, ?_⟩, fun sec => ⟨?_, ?_, ?_⟩, ?_, ?_⟩
  · simp only [build_progress_embed]
    omega
  · by_cases hr : 0 < (ms.filter (fun m => !m.bot)).length - prog.member_index
    · simp [build_progress_embed, hr]
    · have h0 : (ms.filter (fun m => !m.bot)).length - prog.member_index = 0 := by
        omega
      simp [build_progress_embed, h0]
  · intro h
    have h1 : sec / 3600 ≠ 0 := by omega
    simp [fmt_seconds, h1]
  · intro h60 h3600
    have h1 : sec / 3600 = 0 := by omega
    have h2 : sec % 3600 / 60 ≠ 0 := by omega
    have h3 : sec % 3600 / 60 = sec / 60 := by omega
    have h4 : sec / 60 ≠ 0 := by omega
    simp [fmt_seconds, h1, h2, h3, h4]
  · intro h
    have h1 : sec / 3600 = 0 := by omega
    have h2 : sec % 3600 / 60 = 0 := by omega
    have h3 : sec % 60 = sec := by omega
    simp [fmt_seconds, h1, h2, h3]
  · decide
  · decide

/-- Witness for C9: the format characterization applied at 3700, 210 and
45 seconds. -/
theorem estimated_time_computation_witness :
    fmt_seconds 3700 = "1h 1m 40s" ∧ fmt_seconds 210 = "3m 30s" ∧
      fmt_seconds 45 = "45s" := by
  have h := estimated_time_computation
  refine ⟨?_, ?_, ?_⟩
  · have := (h.2.1 3700).1 (by decide)
    simpa using this
  · have := (h.2.1 210).2.1 (by decide) (by decide)
    simpa using this
  · have := (h.2.1 45).2.2 (by decide)
    simpa using this

/-- Changing `delivery_mode` changes nothing the dispatch loop computes:
the value is read per recipient but never used. -/
lemma dmGo_mode (E : Env) (cfg : Config) (m : Option String)
    (t : List String) (n : Nat) :
    ∀ fuel idx sib prog,
      dmGo E { cfg with delivery_mode := m } t n fuel idx sib prog =
        dmGo E cfg t n fuel idx sib prog := by
  intro fuel
  induction fuel with
  | zero => intro idx sib prog; rfl
  | succ f ih =>
    intro idx sib prog
    by_cases hlt : idx < n
    · cases hst : E.stop idx with
      | true => simp [dmGo, hlt, hst]
      | false =>
        simp only [dmGo, if_pos hlt, hst, Bool.false_eq_true, if_false]
        have hprog : (loopStep { cfg with delivery_mode := m } t E idx sib prog).prog =
            (loopStep cfg t E idx sib prog).prog := rfl
        have hsib : (loopStep { cfg with delivery_mode := m } t E idx sib prog).sib =
            (loopStep cfg t E idx sib prog).sib := rfl
        have hpers : (loopStep { cfg with delivery_mode := m } t E idx sib prog).persists =
            (loopStep cfg t E idx sib prog).persists := rfl
        have hpath : (loopStep { cfg with delivery_mode := m } t E idx sib prog).recip.path =
            (loopStep cfg t E idx sib prog).recip.path := rfl
        rw [hprog, hsib, hpers, hpath, ih]
    · simp [dmGo, hlt]

/-- Every send path the dispatch loop takes is the direct-message path. -/
lemma dmGo_paths_dm (E : Env) (cfg : Config) (t : List String) (n : Nat) :
    ∀ fuel idx sib prog,
      (dmGo E cfg t n fuel idx sib prog).paths.all
        (fun p => p == DeliveryPath.dm) = true := by
  intro fuel
  induction fuel with
  | zero => intro idx sib prog; rfl
  | succ f ih =>
    intro idx sib prog
    by_cases hlt : idx < n
    · cases hst : E.stop idx with
      | true => simp [dmGo, hlt, hst]
      | false =>
        have hpath : (loopStep cfg t E idx sib prog).recip.path =
            DeliveryPath.dm := rfl
        have hdm : (DeliveryPath.dm == DeliveryPath.dm) = true := rfl
        simp [dmGo, hlt, hst, hpath, ih, hdm]
    · simp [dmGo, hlt]

/-- C10: delivery mode has no effect on delivery — every recipient the
dispatch loop processes is sent to via direct message (`member.send`)
whatever `delivery_mode` holds; the setting is read (into `modeRead`)
but the run's processed set, progress, persisted snapshots and send
paths are identical under any `delivery_mode` value. -/
theorem delivery_mode_has_no_effect :
    (∀ (w : World) (E : Env) (cfg : Config) (templates : List String)
        (prog : Progress) (m : Option String),
      (dm_scheduler w E { cfg with delivery_mode := m } templates prog).processed =
        (dm_scheduler w E cfg templates prog).processed ∧
      (dm_scheduler w E { cfg with delivery_mode := m } templates prog).progress =
        (dm_scheduler w E cfg templates prog).progress ∧
      (dm_scheduler w E { cfg with delivery_mode := m } templates prog).persists =
        (dm_scheduler w E cfg templates prog).persists ∧
      (dm_scheduler w E { cfg with delivery_mode := m } templates prog).paths =
        (dm_scheduler w E cfg templates prog).paths ∧
      (dm_scheduler w E cfg templates prog).paths.all
        (fun p => p == DeliveryPath.dm) = true) ∧
    (∀ (cfg : Config) (templates : List String) (o : Nat → Outcome)
        (j : Nat → ℚ) (pick : Nat),
      (processRecipient cfg templates o j pick).modeRead =
        cfg.delivery_mode.getD "dm" ∧
      (processRecipient cfg templates o j pick).path = DeliveryPath.dm) := by
  constructor
  · intro w E cfg templates prog m
    have hsetup : setup_ok w { cfg with delivery_mode := m } templates =
        setup_ok w cfg templates := rfl
    by_cases hok : setup_ok w cfg templates
    · have hfin : ∀ (a b : Bool) (p : Progress),
          finalReport { cfg with delivery_mode := m, is_running := false } a b p =
            finalReport { cfg with is_running := false } a b p := fun _ _ _ => rfl
      have hres : resolved_members w { cfg with delivery_mode := m } =
          resolved_members w cfg := rfl
      simp only [dm_scheduler, hsetup, hok, if_true, hres, hfin,
        dmGo_mode E cfg m templates, dmGo_paths_dm E cfg templates]
      simp
    · simp [dm_scheduler, hsetup, hok]
  · intro cfg templates o j pick
    exact ⟨rfl, rfl⟩

end MassDmer
